import Mathlib

/-!
Shallow embedding of the solana-bot membership gate (src/bot.py, src/config.py).

The program gates access to a VIP chat channel on the balance of a Solana
token held by a user-registered wallet.  The parts embedded here are the
balance oracle `get_token_balance` with its three-source fallback chain and
time-bounded cache, the access-decision function
`check_user_tokens_and_manage_access`, the two periodic sweeps
`daily_check_job` and `check_vip_channel_members`, the registry persistence
pair `load_users` / `save_users`, the address validator
`is_valid_solana_address`, and the wallet-registration path of
`handle_message`.

Python floats that carry token balances are modelled as rationals;
wall-clock instants as rationals.  Each upstream HTTP interaction of one
source (request, status code, body parse) is abstracted into a single
`SourceOutcome`, mirroring the disjoint branches the code distinguishes for
that source; a Python exception escaping the request or the parse is the
`exc` outcome, which the code catches per source.  Python dictionaries are
modelled as ordered association lists with the replace-in-place-or-append
assignment semantics of `dict.__setitem__`.
-/

namespace SolanaBot

/-- Token balances (Python floats in the source) are modelled as rationals. -/
abbrev Balance := ℚ

/-- Python dictionary assignment `d[k] = v` on a string-keyed dict:
replace the value at the first (unique) occurrence of the key in place,
otherwise append the new binding at the end. -/
def setKey {α : Type} : List (String × α) → String → α → List (String × α)
  | [], k, v => [(k, v)]
  | p :: rest, k, v => if p.1 = k then (k, v) :: rest else p :: setKey rest k v

/-- Python dictionary read `d.get(k)`: the value at the first occurrence of
the key, if any. -/
def getKey {α : Type} : List (String × α) → String → Option α
  | [], _ => none
  | p :: rest, k => if p.1 = k then some p.2 else getKey rest k

/-- Process-wide immutable configuration (src/config.py): the token mint,
the minimum balance threshold (default 50000) and the cache duration in
seconds (default 300). -/
structure Config where
  SOLANA_TOKEN_MINT : String
  MIN_TOKEN_AMOUNT : Balance
  CACHE_DURATION : ℚ
  deriving DecidableEq, Repr

/-- Abstracted outcome of one upstream source attempt, following the
branches `get_token_balance` distinguishes per source:
`ok b` is HTTP 200 with the expected schema and the token account found
with balance `b`; `noAccount` is HTTP 200 with the expected schema but no
account for the token at this address; `rateLimited` is HTTP 429;
`httpError c` is any other status; `malformed` is HTTP 200 with an
unexpected schema; `exc` is a Python exception raised during the request
or the body parse (caught by the per-source `except` block). -/
inductive SourceOutcome where
  | ok (balance : Balance)
  | noAccount
  | rateLimited
  | httpError (code : Nat)
  | malformed
  | exc
  deriving DecidableEq, Repr

/-- One evaluation sees one outcome per upstream source: the Solana RPC,
the Birdeye API and the Solscan API, in the fixed order the code tries
them. -/
structure FetchEnv where
  rpc : SourceOutcome
  birdeye : SourceOutcome
  solscan : SourceOutcome
  deriving DecidableEq, Repr

/-- Environment in which every source attempt raises (the simulated
upstream exception of the sweep-isolation scenario). -/
def FetchEnv.allExc : FetchEnv := ⟨.exc, .exc, .exc⟩

/-- Names of the three upstream sources, used to record which sources an
evaluation contacted. -/
inductive Upstream where
  | rpc
  | birdeye
  | solscan
  deriving DecidableEq, Repr

/-- The module-level `balance_cache` dict: cache key (the string
`wallet_address ++ "_" ++ token_mint`) to `(balance, fetched_at)`. -/
abbrev Cache := List (String × (Balance × ℚ))

/-- Result of one `get_token_balance` evaluation: the returned value
(`none` models the Python `None` return), the cache state after the call,
and the list of upstream sources that were contacted. -/
structure FetchResult where
  balance : Option Balance
  cache : Cache
  queried : List Upstream
  deriving DecidableEq, Repr

/-- Lines 75-79 of src/bot.py: the fresh-cache lookup.  Returns the cached
balance when an entry exists for the key and strictly less than
`CACHE_DURATION` has elapsed since it was fetched. -/
def fresh_cache_hit (cfg : Config) (cache : Cache) (now : ℚ) (cache_key : String) :
    Option Balance :=
  match getKey cache cache_key with
  | some (b, t) => if now - t < cfg.CACHE_DURATION then some b else none
  | none => none

/-- Whether the Solana RPC block (lines 82-119) produces a return: it
returns on HTTP 200 with the expected schema, both when a token account is
found and when the account list is empty (the zero-balance case); every
other outcome falls through to the next source. -/
def rpcSucceeds : SourceOutcome → Bool
  | .ok _ => true
  | .noAccount => true
  | _ => false

/-- Whether an indexer block (Birdeye lines 122-145, Solscan lines
148-171) produces a return: only when the response is HTTP 200 with the
expected schema and the token is present in the returned list.  A 200
response in which the token is absent falls through (the code prints
"Token not found" and continues). -/
def indexerSucceeds : SourceOutcome → Bool
  | .ok _ => true
  | _ => false

/-- Embedding of `get_token_balance` (src/bot.py lines 68-180).
The call reads the clock once (`now`), short-circuits on a fresh cache
entry, then tries the Solana RPC, the Birdeye API and the Solscan API in
order.  A successful fetch (including the RPC zero-balance case) writes
`(balance, now)` into the cache and returns.  If all three sources fail,
the cached balance is returned regardless of freshness when an entry
exists, and `none` otherwise; neither fallback writes the cache. -/
def get_token_balance (cfg : Config) (env : FetchEnv) (cache : Cache) (now : ℚ)
    (wallet_address : String) (token_mint : String) : FetchResult :=
  let cache_key := wallet_address ++ "_" ++ token_mint
  match fresh_cache_hit cfg cache now cache_key with
  | some b => { balance := some b, cache := cache, queried := [] }
  | none =>
    match env.rpc with
    | .ok b =>
        { balance := some b, cache := setKey cache cache_key (b, now), queried := [.rpc] }
    | .noAccount =>
        { balance := some 0, cache := setKey cache cache_key (0, now), queried := [.rpc] }
    | _ =>
      match env.birdeye with
      | .ok b =>
          { balance := some b, cache := setKey cache cache_key (b, now),
            queried := [.rpc, .birdeye] }
      | _ =>
        match env.solscan with
        | .ok b =>
            { balance := some b, cache := setKey cache cache_key (b, now),
              queried := [.rpc, .birdeye, .solscan] }
        | _ =>
          match getKey cache cache_key with
          | some (b, _) =>
              { balance := some b, cache := cache,
                queried := [.rpc, .birdeye, .solscan] }
          | none =>
              { balance := none, cache := cache,
                queried := [.rpc, .birdeye, .solscan] }

/-- One record of the users.json registry: the optional fields the code
reads from a record (`data.get('wallet')`, `data.get('name')`,
`data.get('username')`). -/
structure UserRecord where
  wallet : Option String
  name : Option String
  username : Option String
  deriving DecidableEq, Repr

/-- The users.json registry: user id (a string) to record, a Python dict. -/
abbrev Users := List (String × UserRecord)

/-- Line 277 of src/bot.py: `users.get(str(user_id), {}).get('wallet')`. -/
def registeredWallet (users : Users) (user_id : String) : Option String :=
  (getKey users user_id).bind (fun r => r.wallet)

/-- Characters of the base58 alphabet used by the validation regex
`^[1-9A-HJ-NP-Za-km-z]{44}$` (line 61 of src/bot.py). -/
def is_base58_char (c : Char) : Bool :=
  ('1' ≤ c && c ≤ '9') || ('A' ≤ c && c ≤ 'H') || ('J' ≤ c && c ≤ 'N') ||
  ('P' ≤ c && c ≤ 'Z') || ('a' ≤ c && c ≤ 'k') || ('m' ≤ c && c ≤ 'z')

/-- Embedding of `is_valid_solana_address` (lines 56-61): a falsy or
wrong-length string is rejected, otherwise the string must fully match the
44-character base58 regex. -/
def is_valid_solana_address (address : String) : Bool :=
  if address.data.length ≠ 44 then false
  else address.data.all is_base58_char

/-- Side effects `check_user_tokens_and_manage_access` attempts on the
chat platform, in order.  Each call site is wrapped in its own
`try`/`except`, so an attempt is recorded whether or not the platform call
succeeds. -/
inductive BotAction where
  | createChatInviteLink
  | notifyAdminLowBalance (user_id : ℤ)
  | banChatMember (user_id : ℤ)
  | unbanChatMember (user_id : ℤ)
  deriving DecidableEq, Repr

/-- The message part of the `(success, message)` pair the function
returns, one constructor per return site (the f-string templates of lines
281, 288, 299, 302 and 326). -/
inductive AccessMessage where
  | noWalletFound
  | errorCheckingBalance
  | accessGranted (balance : Balance)
  | grantedLinkFailed (balance : Balance)
  | insufficientTokens (balance : Balance) (required : Balance)
  deriving DecidableEq, Repr

/-- Result of one `check_user_tokens_and_manage_access` evaluation: the
returned `(success, message)` pair, the chat-platform actions attempted,
how many times the balance oracle was invoked, and the cache state after
the call. -/
structure AccessResult where
  success : Bool
  message : AccessMessage
  actions : List BotAction
  oracleCalls : Nat
  cache : Cache
  deriving DecidableEq, Repr

/-- Whether the `create_chat_invite_link` platform call succeeds (its
failure is caught on line 300 and only changes the returned message). -/
structure TelegramEnv where
  inviteLinkOk : Bool
  deriving DecidableEq, Repr

/-- Embedding of `check_user_tokens_and_manage_access` (src/bot.py lines
274-326).  A missing or falsy wallet is a terminal denial with no oracle
call.  Otherwise the balance oracle runs once; `None` denies with no
platform action; a balance at or above `MIN_TOKEN_AMOUNT` grants and
attempts an invite-link creation; a balance strictly below it denies,
notifies the admin and attempts to remove the user from the VIP channel by
a ban followed by an unban (lines 306-325). -/
def check_user_tokens_and_manage_access (cfg : Config) (env : FetchEnv)
    (tg : TelegramEnv) (users : Users) (cache : Cache) (now : ℚ)
    (user_id : ℤ) : AccessResult :=
  match registeredWallet users (toString user_id) with
  | none => ⟨false, .noWalletFound, [], 0, cache⟩
  | some w =>
    if w = "" then ⟨false, .noWalletFound, [], 0, cache⟩
    else
      let r := get_token_balance cfg env cache now w cfg.SOLANA_TOKEN_MINT
      match r.balance with
      | none => ⟨false, .errorCheckingBalance, [], 1, r.cache⟩
      | some balance =>
        if balance ≥ cfg.MIN_TOKEN_AMOUNT then
          if tg.inviteLinkOk then
            ⟨true, .accessGranted balance, [.createChatInviteLink], 1, r.cache⟩
          else
            ⟨true, .grantedLinkFailed balance, [.createChatInviteLink], 1, r.cache⟩
        else
          ⟨false, .insufficientTokens balance cfg.MIN_TOKEN_AMOUNT,
            [.notifyAdminLowBalance user_id, .banChatMember user_id,
              .unbanChatMember user_id],
            1, r.cache⟩

/-- Per-user outcome of one sweep iteration: the user was skipped for a
missing wallet (`continue` on line 879 resp. 915), skipped because the
balance came back `None` (line 882 resp. 919), alerted for a balance below
the threshold (the notification send is attempted inside its own
`try`/`except`), or found sufficient (no message sent). -/
inductive SweepDecision where
  | skippedNoWallet
  | skippedUnavailable
  | alerted (balance : Balance)
  | sufficient (balance : Balance)
  deriving DecidableEq, Repr

/-- Loop body of `daily_check_job` (lines 876-897) for one user record.
The per-wallet upstream outcomes are given by `fenvOf`; the shared cache
threads through.  A failure of the notification send is caught by the
per-user `except` (line 896) and does not change the outcome. -/
def daily_check_step (cfg : Config) (fenvOf : String → FetchEnv) (now : ℚ)
    (cache : Cache) (data : UserRecord) : SweepDecision × Cache :=
  match data.wallet with
  | none => (.skippedNoWallet, cache)
  | some w =>
    if w = "" then (.skippedNoWallet, cache)
    else
      let r := get_token_balance cfg (fenvOf w) cache now w cfg.SOLANA_TOKEN_MINT
      match r.balance with
      | none => (.skippedUnavailable, r.cache)
      | some b =>
        if b < cfg.MIN_TOKEN_AMOUNT then (.alerted b, r.cache)
        else (.sufficient b, r.cache)

/-- Embedding of `daily_check_job` (src/bot.py lines 874-897): the hourly
sweep over every registered user, producing one decision per user in
registry order and threading the balance cache. -/
def daily_check_job (cfg : Config) (fenvOf : String → FetchEnv) (now : ℚ) :
    Users → Cache → List (String × SweepDecision) × Cache
  | [], cache => ([], cache)
  | (uid, data) :: rest, cache =>
    let s := daily_check_step cfg fenvOf now cache data
    let r := daily_check_job cfg fenvOf now rest s.2
    ((uid, s.1) :: r.1, r.2)

/-- Loop body of `check_vip_channel_members` (lines 912-942) for one user
record.  The evaluation logic is that of the daily sweep; a balance below
the threshold alerts the admin instead of the user, with the send again
inside its own `try`/`except` (line 941). -/
def vip_audit_step (cfg : Config) (fenvOf : String → FetchEnv) (now : ℚ)
    (cache : Cache) (data : UserRecord) : SweepDecision × Cache :=
  match data.wallet with
  | none => (.skippedNoWallet, cache)
  | some w =>
    if w = "" then (.skippedNoWallet, cache)
    else
      let r := get_token_balance cfg (fenvOf w) cache now w cfg.SOLANA_TOKEN_MINT
      match r.balance with
      | none => (.skippedUnavailable, r.cache)
      | some b =>
        if b < cfg.MIN_TOKEN_AMOUNT then (.alerted b, r.cache)
        else (.sufficient b, r.cache)

/-- Recursion over the registry for `check_vip_channel_members`. -/
def vip_audit_loop (cfg : Config) (fenvOf : String → FetchEnv) (now : ℚ) :
    Users → Cache → List (String × SweepDecision) × Cache
  | [], cache => ([], cache)
  | (uid, data) :: rest, cache =>
    let s := vip_audit_step cfg fenvOf now cache data
    let r := vip_audit_loop cfg fenvOf now rest s.2
    ((uid, s.1) :: r.1, r.2)

/-- Embedding of `check_vip_channel_members` (src/bot.py lines 900-950):
the two-hourly audit sweep.  The whole body sits in one outer `try`; when
the initial `get_chat_administrators` platform call fails
(`adminsFetchOk = false`), the outer `except` fires and no user is
processed at all. -/
def check_vip_channel_members (cfg : Config) (adminsFetchOk : Bool)
    (fenvOf : String → FetchEnv) (now : ℚ) (users : Users) (cache : Cache) :
    List (String × SweepDecision) × Cache :=
  if adminsFetchOk then vip_audit_loop cfg fenvOf now users cache
  else ([], cache)

/-- Embedding of `verify_wallet_and_tokens` (src/bot.py lines 259-269):
re-validate the address format, then require the balance oracle to return
a value (any numeric value verifies the wallet). -/
def verify_wallet_and_tokens (cfg : Config) (env : FetchEnv) (cache : Cache)
    (now : ℚ) (wallet_address : String) : Bool × Cache :=
  if is_valid_solana_address wallet_address = false then (false, cache)
  else
    let r := get_token_balance cfg env cache now wallet_address cfg.SOLANA_TOKEN_MINT
    match r.balance with
    | none => (false, r.cache)
    | some _ => (true, r.cache)

/-- Outcome of the awaiting-wallet branch of `handle_message`: the text
was rejected as a malformed address (line 517), the wallet verification
failed (line 562), or the wallet was saved and the VIP access check ran
with the given success flag. -/
inductive RegisterOutcome where
  | invalidFormat
  | verificationFailed
  | registered (success : Bool)
  deriving DecidableEq, Repr

/-- Python `str.strip()` as used on line 512: drop whitespace from both
ends of the message text. -/
def pyStrip (s : String) : String :=
  ⟨((s.data.dropWhile Char.isWhitespace).reverse.dropWhile Char.isWhitespace).reverse⟩

/-- Embedding of the awaiting-wallet branch of `handle_message`
(src/bot.py lines 511-560): strip the message text, validate it, verify it
through the oracle, and on success overwrite the registry record of the
sender with `{'wallet': wallet}` (line 532), persist, and run the VIP
access check. -/
def handle_message (cfg : Config) (env : FetchEnv) (tg : TelegramEnv)
    (users : Users) (cache : Cache) (now : ℚ) (user_id : ℤ) (text : String) :
    Users × Cache × RegisterOutcome :=
  let wallet := pyStrip text
  if is_valid_solana_address wallet = false then (users, cache, .invalidFormat)
  else
    let v := verify_wallet_and_tokens cfg env cache now wallet
    if v.1 = false then (users, v.2, .verificationFailed)
    else
      let users1 := setKey users (toString user_id)
        { wallet := some wallet, name := none, username := none }
      let r := check_user_tokens_and_manage_access cfg env tg users1 v.2 now user_id
      (users1, r.cache, .registered r.success)

/-- Parsed JSON documents, the value space of the `json` library calls in
`load_users` and `save_users`. -/
inductive Json where
  | null
  | bool (b : Bool)
  | num (q : ℚ)
  | str (s : String)
  | arr (elems : List Json)
  | obj (fields : List (String × Json))

/-- String reading of a JSON value, as the code consumes record fields. -/
def Json.asString : Json → Option String
  | .str s => some s
  | _ => none

/-- Serialization of one registry record: the present optional fields, in
the key order the code writes them. -/
def encodeRecord (r : UserRecord) : Json :=
  .obj ((match r.wallet with | some w => [("wallet", Json.str w)] | none => []) ++
        (match r.name with | some n => [("name", Json.str n)] | none => []) ++
        (match r.username with | some u => [("username", Json.str u)] | none => []))

/-- Reading one registry record back from its parsed JSON value.  A value
that is not an object yields an empty record (Python would keep the raw
value and fail later on `.get`; this path is unreachable from documents
produced by `save_users`). -/
def decodeRecord : Json → UserRecord
  | .obj fields =>
      { wallet := (getKey fields "wallet").bind Json.asString
        name := (getKey fields "name").bind Json.asString
        username := (getKey fields "username").bind Json.asString }
  | _ => { wallet := none, name := none, username := none }

/-- Embedding of `save_users` (src/bot.py lines 51-53): `json.dump` the
registry dict to the users file, modelled as producing the parsed JSON
document the dump serializes. -/
def save_users (users : Users) : Json :=
  .obj (users.map (fun p => (p.1, encodeRecord p.2)))

/-- Embedding of `load_users` (src/bot.py lines 38-48): `none` models a
missing file (`FileNotFoundError`) or an unparseable one
(`json.JSONDecodeError`), both of which reset to the empty dict; a parsed
document that is not a dict is likewise reset to the empty dict (line 45);
a dict is returned with its records. -/
def load_users (file : Option Json) : Users :=
  match file with
  | none => []
  | some j =>
    match j with
    | .obj fields => fields.map (fun p => (p.1, decodeRecord p.2))
    | _ => []

/-- Concrete configuration for fully evaluated statements: the config.py
defaults for the threshold (50000) and the cache duration (300 seconds). -/
def cfgW : Config :=
  { SOLANA_TOKEN_MINT := "MINT", MIN_TOKEN_AMOUNT := 50000, CACHE_DURATION := 300 }

/-- Per-wallet upstream outcomes for the three-user isolation scenario:
user A (wallet wa) fetches 60000 from the RPC, user B (wallet wb) hits a
raised exception at every source, user C (wallet wc) fetches 10. -/
def fenvW : String → FetchEnv := fun w =>
  if w = "wa" then ⟨.ok 60000, .exc, .exc⟩
  else if w = "wb" then FetchEnv.allExc
  else ⟨.ok 10, .exc, .exc⟩

theorem getKey_setKey_self {α : Type} (l : List (String × α)) (k : String) (v : α) :
    getKey (setKey l k v) k = some v := by
  induction l with
  | nil => simp [setKey, getKey]
  | cons p rest ih =>
    by_cases h : p.1 = k
    · simp [setKey, getKey, h]
    · simp [setKey, getKey, h, ih]

theorem getKey_setKey_ne {α : Type} (l : List (String × α)) (k k' : String) (v : α)
    (h : k' ≠ k) : getKey (setKey l k v) k' = getKey l k' := by
  have hk : ¬ (k = k') := fun hh => h hh.symm
  induction l with
  | nil => simp [setKey, getKey, hk]
  | cons p rest ih =>
    by_cases hp : p.1 = k
    · simp [setKey, getKey, hp, hk]
    · simp [setKey, getKey, hp, ih]

/-- A fresh-cache hit can only exist when the cache holds the key, with
the same balance. -/
theorem fresh_cache_hit_getKey (cfg : Config) (cache : Cache) (now : ℚ)
    (cache_key : String) (b : Balance)
    (h : fresh_cache_hit cfg cache now cache_key = some b) :
    ∃ t, getKey cache cache_key = some (b, t) := by
  unfold fresh_cache_hit at h
  rcases hg : getKey cache cache_key with _ | ⟨bv, tv⟩
  · rw [hg] at h; cases h
  · rw [hg] at h
    by_cases ht : now - tv < cfg.CACHE_DURATION
    · have hb : bv = b := by simpa [ht] using h
      subst hb
      exact ⟨tv, by simp [hg]⟩
    · simp [ht] at h

/-- An empty cache slot for the key means no fresh hit. -/
theorem fresh_cache_hit_of_getKey_none (cfg : Config) (cache : Cache) (now : ℚ)
    (cache_key : String) (hg : getKey cache cache_key = none) :
    fresh_cache_hit cfg cache now cache_key = none := by
  unfold fresh_cache_hit
  rw [hg]

/-- When the fresh-cache check misses and all three sources fail, the call
falls through to the cache fallback of lines 173-180: the cached balance
regardless of freshness, or `None`, with the cache unmodified and all
three sources contacted. -/
theorem get_token_balance_all_fail (cfg : Config) (env : FetchEnv) (cache : Cache)
    (now : ℚ) (w m : String)
    (hf : fresh_cache_hit cfg cache now (w ++ "_" ++ m) = none)
    (h1 : rpcSucceeds env.rpc = false) (h2 : indexerSucceeds env.birdeye = false)
    (h3 : indexerSucceeds env.solscan = false) :
    get_token_balance cfg env cache now w m =
      match getKey cache (w ++ "_" ++ m) with
      | some (b, _) => ⟨some b, cache, [.rpc, .birdeye, .solscan]⟩
      | none => ⟨none, cache, [.rpc, .birdeye, .solscan]⟩ := by
  obtain ⟨r, bd, s⟩ := env
  simp only [get_token_balance, hf]
  cases r <;> cases bd <;> cases s <;> simp_all [rpcSucceeds, indexerSucceeds]

/-- C8: `get_token_balance` returns `None` exactly when all three sources
fail and the cache holds no entry for the key; in every other combination
of upstream outcomes it returns a numeric balance.  The embedding is a
total function, mirroring that every Python execution path of the function
ends in a `return` (each upstream interaction sits inside its own
`try`/`except`, so no outcome escapes as an exception). -/
theorem c8_total_characterization (cfg : Config) (env : FetchEnv) (cache : Cache)
    (now : ℚ) (wallet_address token_mint : String) :
    (get_token_balance cfg env cache now wallet_address token_mint).balance = none ↔
      (rpcSucceeds env.rpc = false ∧ indexerSucceeds env.birdeye = false ∧
        indexerSucceeds env.solscan = false ∧
        getKey cache (wallet_address ++ "_" ++ token_mint) = none) := by
  obtain ⟨r, bd, s⟩ := env
  cases hf : fresh_cache_hit cfg cache now (wallet_address ++ "_" ++ token_mint) with
  | some bal =>
    obtain ⟨t, hg⟩ := fresh_cache_hit_getKey cfg cache now _ bal hf
    simp only [get_token_balance, hf]
    simp [hg]
  | none =>
    simp only [get_token_balance, hf]
    cases r <;> cases bd <;> cases s <;>
      (cases hk : getKey cache (wallet_address ++ "_" ++ token_mint) <;>
        simp_all [rpcSucceeds, indexerSucceeds])

/-- C4: when all three upstream sources fail, the call returns the cached
balance whenever the cache holds an entry for the key, fresh or stale, and
returns `None` exactly when it holds none. -/
theorem c4_all_sources_fail (cfg : Config) (env : FetchEnv) (cache : Cache)
    (now : ℚ) (wallet_address token_mint : String)
    (h1 : rpcSucceeds env.rpc = false) (h2 : indexerSucceeds env.birdeye = false)
    (h3 : indexerSucceeds env.solscan = false) :
    (∀ b t, getKey cache (wallet_address ++ "_" ++ token_mint) = some (b, t) →
       (get_token_balance cfg env cache now wallet_address token_mint).balance = some b) ∧
    (getKey cache (wallet_address ++ "_" ++ token_mint) = none →
       (get_token_balance cfg env cache now wallet_address token_mint).balance = none) := by
  constructor
  · intro b t hg
    cases hf : fresh_cache_hit cfg cache now (wallet_address ++ "_" ++ token_mint) with
    | some bal =>
      obtain ⟨t2, hg2⟩ := fresh_cache_hit_getKey cfg cache now _ bal hf
      rw [hg] at hg2
      simp only [get_token_balance, hf]
      simp_all
    | none =>
      rw [get_token_balance_all_fail cfg env cache now _ _ hf h1 h2 h3, hg]
  · intro hg
    rw [get_token_balance_all_fail cfg env cache now _ _
      (fresh_cache_hit_of_getKey_none cfg cache now _ hg) h1 h2 h3, hg]

/-- A fresh cache hit short-circuits: the cached balance is returned with
the cache unchanged and no upstream source contacted (lines 75-79). -/
theorem get_token_balance_fresh (cfg : Config) (env : FetchEnv) (cache : Cache)
    (now : ℚ) (w m : String) (b : Balance)
    (hf : fresh_cache_hit cfg cache now (w ++ "_" ++ m) = some b) :
    get_token_balance cfg env cache now w m = ⟨some b, cache, []⟩ := by
  simp only [get_token_balance, hf]

/-- When the fresh-cache check misses and the Solana RPC finds a token
account, the call returns its balance, writes it to the cache with the
call timestamp, and contacts no further source. -/
theorem get_token_balance_rpc_ok (cfg : Config) (env : FetchEnv) (cache : Cache)
    (now : ℚ) (w m : String) (b : Balance)
    (hf : fresh_cache_hit cfg cache now (w ++ "_" ++ m) = none)
    (hr : env.rpc = .ok b) :
    get_token_balance cfg env cache now w m =
      ⟨some b, setKey cache (w ++ "_" ++ m) (b, now), [.rpc]⟩ := by
  obtain ⟨r, bd, s⟩ := env
  simp only at hr
  subst hr
  simp only [get_token_balance, hf]

/-- When the fresh-cache check misses and the Solana RPC reports no token
account for the address, the call returns zero, caches `(0, now)`, and
contacts no further source (lines 108-111). -/
theorem get_token_balance_rpc_noAccount (cfg : Config) (env : FetchEnv) (cache : Cache)
    (now : ℚ) (w m : String)
    (hf : fresh_cache_hit cfg cache now (w ++ "_" ++ m) = none)
    (hr : env.rpc = .noAccount) :
    get_token_balance cfg env cache now w m =
      ⟨some 0, setKey cache (w ++ "_" ++ m) (0, now), [.rpc]⟩ := by
  obtain ⟨r, bd, s⟩ := env
  simp only at hr
  subst hr
  simp only [get_token_balance, hf]

/-- When the fresh-cache check misses, the RPC fails and Birdeye returns
the token, the call returns the Birdeye balance and caches it. -/
theorem get_token_balance_birdeye_ok (cfg : Config) (env : FetchEnv) (cache : Cache)
    (now : ℚ) (w m : String) (b : Balance)
    (hf : fresh_cache_hit cfg cache now (w ++ "_" ++ m) = none)
    (h1 : rpcSucceeds env.rpc = false) (hb : env.birdeye = .ok b) :
    get_token_balance cfg env cache now w m =
      ⟨some b, setKey cache (w ++ "_" ++ m) (b, now), [.rpc, .birdeye]⟩ := by
  obtain ⟨r, bd, s⟩ := env
  simp only at h1 hb
  subst hb
  cases r <;> simp_all [get_token_balance, rpcSucceeds]

/-- When the fresh-cache check misses, the RPC and Birdeye both fail and
Solscan returns the token, the call returns the Solscan balance and
caches it. -/
theorem get_token_balance_solscan_ok (cfg : Config) (env : FetchEnv) (cache : Cache)
    (now : ℚ) (w m : String) (b : Balance)
    (hf : fresh_cache_hit cfg cache now (w ++ "_" ++ m) = none)
    (h1 : rpcSucceeds env.rpc = false) (h2 : indexerSucceeds env.birdeye = false)
    (hs : env.solscan = .ok b) :
    get_token_balance cfg env cache now w m =
      ⟨some b, setKey cache (w ++ "_" ++ m) (b, now), [.rpc, .birdeye, .solscan]⟩ := by
  obtain ⟨r, bd, s⟩ := env
  simp only at h1 h2 hs
  subst hs
  cases r <;> cases bd <;> simp_all [get_token_balance, rpcSucceeds, indexerSucceeds]

/-- Witness for C4 at concrete inputs: all sources fail over a stale cache
entry (fetched 1000 seconds ago) and the stale balance 9 is returned, and
over an empty cache the call returns `None`. -/
theorem c4_all_sources_fail_witness :
    (get_token_balance cfgW ⟨.exc, .httpError 500, .malformed⟩
        [("w_MINT", (9, 0))] 1000 "w" "MINT").balance = some 9 ∧
    (get_token_balance cfgW ⟨.exc, .httpError 500, .malformed⟩ [] 1000 "w" "MINT").balance =
      none :=
  ⟨(c4_all_sources_fail cfgW ⟨.exc, .httpError 500, .malformed⟩ [("w_MINT", (9, 0))]
      1000 "w" "MINT" (by decide) (by decide) (by decide)).1 9 0 (by decide),
   (c4_all_sources_fail cfgW ⟨.exc, .httpError 500, .malformed⟩ [] 1000 "w" "MINT"
      (by decide) (by decide) (by decide)).2 (by decide)⟩

/-- C3 counterexample: with the secondary indexer (Birdeye) responding
successfully but without the token in the portfolio (the no-account case)
and the RPC rate limited, the call does not return 0: it goes on to query
the tertiary source (Solscan), returns its balance 7, and caches 7 rather
than 0.  This refutes the claim for the secondary source. -/
theorem c3_counterexample :
    (get_token_balance cfgW ⟨.rateLimited, .noAccount, .ok 7⟩ [] 0 "w" "MINT").balance =
        some 7 ∧
    Upstream.solscan ∈
      (get_token_balance cfgW ⟨.rateLimited, .noAccount, .ok 7⟩ [] 0 "w" "MINT").queried ∧
    getKey (get_token_balance cfgW ⟨.rateLimited, .noAccount, .ok 7⟩ [] 0 "w" "MINT").cache
        "w_MINT" = some (7, 0) := by decide

/-- C3 amended: only the primary source (the Solana RPC) treats a
no-token-account response as a successful zero-balance result that writes
`(0, now)` to the cache and short-circuits the chain.  When the secondary
indexer responds without the token, the tertiary source is still queried;
when the tertiary indexer responds without the token (and the earlier
sources failed), the call falls through to the cache fallback and caches
nothing. -/
theorem c3_no_account_zero_only_rpc (cfg : Config) (env : FetchEnv) (cache : Cache)
    (now : ℚ) (w m : String)
    (hf : fresh_cache_hit cfg cache now (w ++ "_" ++ m) = none) :
    (env.rpc = .noAccount →
       get_token_balance cfg env cache now w m =
         ⟨some 0, setKey cache (w ++ "_" ++ m) (0, now), [.rpc]⟩) ∧
    (rpcSucceeds env.rpc = false → env.birdeye = .noAccount →
       Upstream.solscan ∈ (get_token_balance cfg env cache now w m).queried) ∧
    (rpcSucceeds env.rpc = false → indexerSucceeds env.birdeye = false →
       env.solscan = .noAccount →
       (get_token_balance cfg env cache now w m).balance =
         (getKey cache (w ++ "_" ++ m)).map (fun p => p.1) ∧
       (get_token_balance cfg env cache now w m).cache = cache) := by
  refine ⟨?_, ?_, ?_⟩
  · intro hr
    exact get_token_balance_rpc_noAccount cfg env cache now w m hf hr
  · intro h1 hb
    obtain ⟨r, bd, s⟩ := env
    simp only at h1 hb
    subst hb
    cases r <;> cases s <;>
      (try simp_all [rpcSucceeds]) <;>
      (cases hk : getKey cache (w ++ "_" ++ m) <;>
        simp_all [get_token_balance, rpcSucceeds])
  · intro h1 h2 hs
    have h3 : indexerSucceeds env.solscan = false := by rw [hs]; rfl
    rw [get_token_balance_all_fail cfg env cache now w m hf h1 h2 h3]
    cases hk : getKey cache (w ++ "_" ++ m) with
    | none => simp [hk]
    | some p => obtain ⟨b, t⟩ := p; simp [hk]

/-- Witness for C3: the RPC no-account case yields the cached zero result
with no later source queried, and the Birdeye no-account case (after an
RPC exception) reaches Solscan. -/
theorem c3_no_account_zero_only_rpc_witness :
    (get_token_balance cfgW ⟨.noAccount, .exc, .exc⟩ [] 0 "w" "MINT" =
      ⟨some 0, setKey [] ("w" ++ "_" ++ "MINT") (0, 0), [.rpc]⟩) ∧
    Upstream.solscan ∈
      (get_token_balance cfgW ⟨.exc, .noAccount, .exc⟩ [] 0 "w" "MINT").queried :=
  ⟨(c3_no_account_zero_only_rpc cfgW ⟨.noAccount, .exc, .exc⟩ [] 0 "w" "MINT"
      (by decide)).1 rfl,
   (c3_no_account_zero_only_rpc cfgW ⟨.exc, .noAccount, .exc⟩ [] 0 "w" "MINT"
      (by decide)).2.1 (by decide) rfl⟩

/-- After a fetch that succeeded at some source, the cache holds an entry
for the key stamped with the call time. -/
theorem get_token_balance_cache_entry_of_success (cfg : Config) (env : FetchEnv)
    (cache : Cache) (now : ℚ) (w m : String)
    (hf : fresh_cache_hit cfg cache now (w ++ "_" ++ m) = none)
    (hsucc : rpcSucceeds env.rpc = true ∨ indexerSucceeds env.birdeye = true ∨
      indexerSucceeds env.solscan = true) :
    ∃ bv, getKey (get_token_balance cfg env cache now w m).cache (w ++ "_" ++ m) =
      some (bv, now) := by
  by_cases h1 : rpcSucceeds env.rpc = true
  · cases hr : env.rpc with
    | ok bb =>
      exact ⟨bb, by
        rw [get_token_balance_rpc_ok cfg env cache now w m bb hf hr]
        exact getKey_setKey_self cache _ _⟩
    | noAccount =>
      exact ⟨0, by
        rw [get_token_balance_rpc_noAccount cfg env cache now w m hf hr]
        exact getKey_setKey_self cache _ _⟩
    | rateLimited => rw [hr] at h1; simp [rpcSucceeds] at h1
    | httpError code => rw [hr] at h1; simp [rpcSucceeds] at h1
    | malformed => rw [hr] at h1; simp [rpcSucceeds] at h1
    | exc => rw [hr] at h1; simp [rpcSucceeds] at h1
  · have h1f : rpcSucceeds env.rpc = false := by
      cases hx : rpcSucceeds env.rpc
      · rfl
      · exact absurd hx h1
    by_cases h2 : indexerSucceeds env.birdeye = true
    · cases hbd : env.birdeye with
      | ok bb =>
        exact ⟨bb, by
          rw [get_token_balance_birdeye_ok cfg env cache now w m bb hf h1f hbd]
          exact getKey_setKey_self cache _ _⟩
      | noAccount => rw [hbd] at h2; simp [indexerSucceeds] at h2
      | rateLimited => rw [hbd] at h2; simp [indexerSucceeds] at h2
      | httpError code => rw [hbd] at h2; simp [indexerSucceeds] at h2
      | malformed => rw [hbd] at h2; simp [indexerSucceeds] at h2
      | exc => rw [hbd] at h2; simp [indexerSucceeds] at h2
    · have h2f : indexerSucceeds env.birdeye = false := by
        cases hx : indexerSucceeds env.birdeye
        · rfl
        · exact absurd hx h2
      have h3 : indexerSucceeds env.solscan = true := by
        rcases hsucc with h | h | h
        · exact absurd h h1
        · exact absurd h h2
        · exact h
      cases hs : env.solscan with
      | ok bb =>
        exact ⟨bb, by
          rw [get_token_balance_solscan_ok cfg env cache now w m bb hf h1f h2f hs]
          exact getKey_setKey_self cache _ _⟩
      | noAccount => rw [hs] at h3; simp [indexerSucceeds] at h3
      | rateLimited => rw [hs] at h3; simp [indexerSucceeds] at h3
      | httpError code => rw [hs] at h3; simp [indexerSucceeds] at h3
      | malformed => rw [hs] at h3; simp [indexerSucceeds] at h3
      | exc => rw [hs] at h3; simp [indexerSucceeds] at h3

/-- C5 counterexample to the at-most-one-upstream-call consequence: two
calls one second apart (well within CACHE_DURATION = 300) in which every
source fails both times and the cache starts empty.  Neither call writes
the cache, so both calls contact upstream sources. -/
theorem c5_counterexample :
    ((1 : ℚ) - 0 < cfgW.CACHE_DURATION) ∧
    (get_token_balance cfgW FetchEnv.allExc [] 0 "w" "MINT").queried ≠ [] ∧
    (get_token_balance cfgW FetchEnv.allExc
        (get_token_balance cfgW FetchEnv.allExc [] 0 "w" "MINT").cache 1 "w" "MINT").queried ≠
      [] := by
  refine ⟨by norm_num [cfgW], by decide, by decide⟩

/-- C5 amended: the fresh-cache short-circuit holds as stated — an entry
younger than CACHE_DURATION is returned with no upstream contact and no
cache change — and the two-calls consequence holds provided the first
call obtains its balance from some upstream source: then the first call
stamps the cache with its own time, the second call within CACHE_DURATION
hits that entry, and at most one of the two calls contacts upstream.
When every source fails, nothing is written and a second call contacts
upstream again (see the counterexample). -/
theorem c5_fresh_cache_short_circuit (cfg : Config) (env1 env2 : FetchEnv)
    (cache : Cache) (now now2 : ℚ) (w m : String) :
    (∀ b t, getKey cache (w ++ "_" ++ m) = some (b, t) →
       now - t < cfg.CACHE_DURATION →
       get_token_balance cfg env1 cache now w m = ⟨some b, cache, []⟩) ∧
    ((rpcSucceeds env1.rpc = true ∨ indexerSucceeds env1.birdeye = true ∨
        indexerSucceeds env1.solscan = true) →
      now2 - now < cfg.CACHE_DURATION →
      (get_token_balance cfg env1 cache now w m).queried = [] ∨
      (get_token_balance cfg env2
          (get_token_balance cfg env1 cache now w m).cache now2 w m).queried = []) := by
  constructor
  · intro b t hg ht
    have hf : fresh_cache_hit cfg cache now (w ++ "_" ++ m) = some b := by
      unfold fresh_cache_hit
      rw [hg]
      simp [ht]
    simp only [get_token_balance, hf]
  · intro hsucc ht2
    cases hf : fresh_cache_hit cfg cache now (w ++ "_" ++ m) with
    | some b =>
      left
      rw [get_token_balance_fresh cfg env1 cache now w m b hf]
    | none =>
      right
      obtain ⟨bv, hks⟩ :=
        get_token_balance_cache_entry_of_success cfg env1 cache now w m hf hsucc
      have hf2 : fresh_cache_hit cfg (get_token_balance cfg env1 cache now w m).cache
          now2 (w ++ "_" ++ m) = some bv := by
        unfold fresh_cache_hit
        rw [hks]
        simp [ht2]
      rw [get_token_balance_fresh cfg env2 _ now2 w m bv hf2]

/-- Witness for C5: a fresh entry (9 tokens, fetched at the same instant)
is returned with no upstream contact; and after a first call that fetches
5 tokens from the RPC, a second call one second later contacts no
upstream source. -/
theorem c5_fresh_cache_short_circuit_witness :
    (get_token_balance cfgW FetchEnv.allExc [("w_MINT", (9, 100))] 100 "w" "MINT" =
      ⟨some 9, [("w_MINT", (9, 100))], []⟩) ∧
    ((get_token_balance cfgW ⟨.ok 5, .exc, .exc⟩ [] 0 "w" "MINT").queried = [] ∨
      (get_token_balance cfgW FetchEnv.allExc
          (get_token_balance cfgW ⟨.ok 5, .exc, .exc⟩ [] 0 "w" "MINT").cache
          1 "w" "MINT").queried = []) :=
  ⟨(c5_fresh_cache_short_circuit cfgW FetchEnv.allExc FetchEnv.allExc
      [("w_MINT", (9, 100))] 100 0 "w" "MINT").1 9 100 (by decide) (by norm_num [cfgW]),
   (c5_fresh_cache_short_circuit cfgW ⟨.ok 5, .exc, .exc⟩ FetchEnv.allExc
      [] 0 1 "w" "MINT").2 (Or.inl (by decide)) (by norm_num [cfgW])⟩

/-- C6: for a user with a registered wallet whose balance is determined,
access is granted exactly when the balance is at least MIN_TOKEN_AMOUNT;
the boundary is inclusive (line 290, `balance >= MIN_TOKEN_AMOUNT`). -/
theorem c6_threshold_inclusive (cfg : Config) (env : FetchEnv) (tg : TelegramEnv)
    (users : Users) (cache : Cache) (now : ℚ) (user_id : ℤ) (w : String) (b : Balance)
    (hw : registeredWallet users (toString user_id) = some w) (hne : ¬ (w = ""))
    (hb : (get_token_balance cfg env cache now w cfg.SOLANA_TOKEN_MINT).balance = some b) :
    ((check_user_tokens_and_manage_access cfg env tg users cache now user_id).success =
        true ↔ cfg.MIN_TOKEN_AMOUNT ≤ b) := by
  by_cases hge : cfg.MIN_TOKEN_AMOUNT ≤ b
  · cases htg : tg.inviteLinkOk <;>
      simp [check_user_tokens_and_manage_access, hw, hne, hb, hge, htg]
  · simp [check_user_tokens_and_manage_access, hw, hne, hb, hge]

/-- Witness for C6 at the inclusive boundary of the spec scenario: a
balance of exactly 50000 against the default threshold 50000 is granted. -/
theorem c6_threshold_inclusive_witness :
    (check_user_tokens_and_manage_access cfgW ⟨.ok 50000, .exc, .exc⟩ ⟨true⟩
        [("5", ⟨some "w", none, none⟩)] [] 0 5).success = true :=
  (c6_threshold_inclusive cfgW ⟨.ok 50000, .exc, .exc⟩ ⟨true⟩
      [("5", ⟨some "w", none, none⟩)] [] 0 5 "w" 50000
      (by decide) (by decide) (by decide)).mpr (by norm_num [cfgW])

/-- C7: a user with no registered wallet is denied terminally: the
returned pair is `(False, "No wallet found")` — the denial whose rationale
is that no wallet is registered — no chat-platform action is attempted,
the balance oracle is never invoked (zero network access), and the cache
is untouched (lines 277-281). -/
theorem c7_no_wallet_registered (cfg : Config) (env : FetchEnv) (tg : TelegramEnv)
    (users : Users) (cache : Cache) (now : ℚ) (user_id : ℤ)
    (h : registeredWallet users (toString user_id) = none) :
    check_user_tokens_and_manage_access cfg env tg users cache now user_id =
      ⟨false, .noWalletFound, [], 0, cache⟩ := by
  simp only [check_user_tokens_and_manage_access, h]

/-- Witness for C7: an unregistered user is denied with the no-wallet
message and zero oracle calls, even though the RPC would report a large
balance. -/
theorem c7_no_wallet_registered_witness :
    check_user_tokens_and_manage_access cfgW ⟨.ok 99999999, .exc, .exc⟩ ⟨true⟩
        [] [] 0 1 = ⟨false, .noWalletFound, [], 0, []⟩ :=
  c7_no_wallet_registered cfgW ⟨.ok 99999999, .exc, .exc⟩ ⟨true⟩ [] [] 0 1 (by decide)

/-- C1 counterexample: user 7 has a registered wallet and a determined
balance of 0, strictly below the threshold, and the evaluation attempts a
`ban_chat_member` call on the VIP channel (lines 316-319) — the
evaluation is not removal-free. -/
theorem c1_counterexample :
    BotAction.banChatMember 7 ∈
      (check_user_tokens_and_manage_access cfgW ⟨.ok 0, .exc, .exc⟩ ⟨true⟩
        [("7", ⟨some "w", none, none⟩)] [] 0 7).actions := by decide

/-- C1 amended: the evaluation attempts a removal (a ban, followed by an
unban, of the evaluated user) exactly when the user has a registered
wallet and a determined balance strictly below the threshold; with no
wallet, an unavailable balance, or a balance at or above the threshold it
performs no ban on anyone. -/
theorem c1_removal_characterization (cfg : Config) (env : FetchEnv) (tg : TelegramEnv)
    (users : Users) (cache : Cache) (now : ℚ) (user_id target : ℤ) :
    (BotAction.banChatMember target ∈
        (check_user_tokens_and_manage_access cfg env tg users cache now user_id).actions) ↔
      (target = user_id ∧ ∃ w b, registeredWallet users (toString user_id) = some w ∧
        ¬ (w = "") ∧
        (get_token_balance cfg env cache now w cfg.SOLANA_TOKEN_MINT).balance = some b ∧
        b < cfg.MIN_TOKEN_AMOUNT) := by
  cases hw : registeredWallet users (toString user_id) with
  | none => simp [check_user_tokens_and_manage_access, hw]
  | some w =>
    by_cases hne : w = ""
    · subst hne
      simp [check_user_tokens_and_manage_access, hw]
    · cases hb : (get_token_balance cfg env cache now w cfg.SOLANA_TOKEN_MINT).balance with
      | none => simp [check_user_tokens_and_manage_access, hw, hne, hb]
      | some b =>
        by_cases hge : cfg.MIN_TOKEN_AMOUNT ≤ b
        · cases htg : tg.inviteLinkOk <;>
            simp [check_user_tokens_and_manage_access, hw, hne, hb, hge, htg,
              not_lt.mpr hge]
        · simp [check_user_tokens_and_manage_access, hw, hne, hb, hge,
            lt_of_not_ge hge]

/-- C10: a successful wallet verification through the message handler
replaces the registry record of the sender wholesale by a record holding
only the wallet (any previously stored name or username is erased), and
leaves the record of every other user unchanged. -/
theorem c10_registration_overwrites (cfg : Config) (env : FetchEnv) (tg : TelegramEnv)
    (users : Users) (cache : Cache) (now : ℚ) (user_id : ℤ) (text : String) (b : Balance)
    (hv : is_valid_solana_address (pyStrip text) = true)
    (hb : (get_token_balance cfg env cache now (pyStrip text)
        cfg.SOLANA_TOKEN_MINT).balance = some b) :
    (getKey (handle_message cfg env tg users cache now user_id text).1 (toString user_id) =
       some ⟨some (pyStrip text), none, none⟩) ∧
    (∀ uid2, ¬ (uid2 = toString user_id) →
       getKey (handle_message cfg env tg users cache now user_id text).1 uid2 =
         getKey users uid2) := by
  have hm : (handle_message cfg env tg users cache now user_id text).1 =
      setKey users (toString user_id) ⟨some (pyStrip text), none, none⟩ := by
    simp [handle_message, verify_wallet_and_tokens, hv, hb]
  rw [hm]
  exact ⟨getKey_setKey_self users _ _,
    fun uid2 h2 => getKey_setKey_ne users _ uid2 _ h2⟩

/-- Witness for C10: user 7, who had a record with name and username
fields, registers a valid 44-character address; the new record holds only
the wallet and user 8 is untouched. -/
theorem c10_registration_overwrites_witness :
    (getKey (handle_message cfgW ⟨.ok 1, .exc, .exc⟩ ⟨true⟩
        [("7", ⟨some "oldwallet", some "Name", some "user"⟩),
         ("8", ⟨some "other", some "N8", none⟩)] [] 0 7
        "AAAAAAAAAAAAAAAAAAAAAAAAAAAAAAAAAAAAAAAAAAAA").1 "7" =
      some ⟨some (pyStrip "AAAAAAAAAAAAAAAAAAAAAAAAAAAAAAAAAAAAAAAAAAAA"), none, none⟩) ∧
    (getKey (handle_message cfgW ⟨.ok 1, .exc, .exc⟩ ⟨true⟩
        [("7", ⟨some "oldwallet", some "Name", some "user"⟩),
         ("8", ⟨some "other", some "N8", none⟩)] [] 0 7
        "AAAAAAAAAAAAAAAAAAAAAAAAAAAAAAAAAAAAAAAAAAAA").1 "8" =
      some ⟨some "other", some "N8", none⟩) :=
  ⟨(c10_registration_overwrites cfgW ⟨.ok 1, .exc, .exc⟩ ⟨true⟩
      [("7", ⟨some "oldwallet", some "Name", some "user"⟩),
       ("8", ⟨some "other", some "N8", none⟩)] [] 0 7
      "AAAAAAAAAAAAAAAAAAAAAAAAAAAAAAAAAAAAAAAAAAAA" 1 (by decide) (by decide)).1,
   (c10_registration_overwrites cfgW ⟨.ok 1, .exc, .exc⟩ ⟨true⟩
      [("7", ⟨some "oldwallet", some "Name", some "user"⟩),
       ("8", ⟨some "other", some "N8", none⟩)] [] 0 7
      "AAAAAAAAAAAAAAAAAAAAAAAAAAAAAAAAAAAAAAAAAAAA" 1 (by decide) (by decide)).2
      "8" (by decide)⟩

/-- Decoding a record from its own serialization restores it exactly. -/
theorem decodeRecord_encodeRecord (r : UserRecord) : decodeRecord (encodeRecord r) = r := by
  obtain ⟨w, n, u⟩ := r
  cases w <;> cases n <;> cases u <;>
    simp [encodeRecord, decodeRecord, getKey, Json.asString]

/-- Loading a saved registry restores it exactly. -/
theorem load_users_save_users (users : Users) :
    load_users (some (save_users users)) = users := by
  show (users.map (fun p => (p.1, encodeRecord p.2))).map
      (fun p => (p.1, decodeRecord p.2)) = users
  induction users with
  | nil => rfl
  | cons p rest ih => simp [decodeRecord_encodeRecord, ih]

/-- C9: persisting a registry snapshot with `save_users` and loading it
back with `load_users` reproduces the same wallet for every user id. -/
theorem c9_round_trip (users : Users) (user_id : String) :
    registeredWallet (load_users (some (save_users users))) user_id =
      registeredWallet users user_id := by
  rw [load_users_save_users]

/-- A call in which every source raises leaves the cache unchanged: the
fresh-hit path and both fallback paths return without writing. -/
theorem get_token_balance_allExc_cache (cfg : Config) (cache : Cache) (now : ℚ)
    (w m : String) :
    (get_token_balance cfg FetchEnv.allExc cache now w m).cache = cache := by
  cases hf : fresh_cache_hit cfg cache now (w ++ "_" ++ m) with
  | some b => rw [get_token_balance_fresh cfg FetchEnv.allExc cache now w m b hf]
  | none =>
    rw [get_token_balance_all_fail cfg FetchEnv.allExc cache now w m hf rfl rfl rfl]
    cases hk : getKey cache (w ++ "_" ++ m) with
    | none => rfl
    | some p =>
      obtain ⟨b, t⟩ := p
      rfl

/-- A daily-sweep iteration for a user whose every upstream source raises
leaves the shared cache unchanged. -/
theorem daily_check_step_allExc (cfg : Config) (fenvOf : String → FetchEnv) (now : ℚ)
    (cache : Cache) (data : UserRecord) (w : String)
    (hw : data.wallet = some w) (hexc : fenvOf w = FetchEnv.allExc) :
    (daily_check_step cfg fenvOf now cache data).2 = cache := by
  unfold daily_check_step
  rw [hw]
  dsimp only
  rw [hexc]
  by_cases hne : w = ""
  · simp [hne]
  · simp only [if_neg hne]
    have hc := get_token_balance_allExc_cache cfg cache now w cfg.SOLANA_TOKEN_MINT
    cases hb : (get_token_balance cfg FetchEnv.allExc cache now w
        cfg.SOLANA_TOKEN_MINT).balance with
    | none => simp [hb, hc]
    | some b => by_cases hlt : b < cfg.MIN_TOKEN_AMOUNT <;> simp [hb, hc, hlt]

/-- An audit iteration for a user whose every upstream source raises
leaves the shared cache unchanged. -/
theorem vip_audit_step_allExc (cfg : Config) (fenvOf : String → FetchEnv) (now : ℚ)
    (cache : Cache) (data : UserRecord) (w : String)
    (hw : data.wallet = some w) (hexc : fenvOf w = FetchEnv.allExc) :
    (vip_audit_step cfg fenvOf now cache data).2 = cache := by
  unfold vip_audit_step
  rw [hw]
  dsimp only
  rw [hexc]
  by_cases hne : w = ""
  · simp [hne]
  · simp only [if_neg hne]
    have hc := get_token_balance_allExc_cache cfg cache now w cfg.SOLANA_TOKEN_MINT
    cases hb : (get_token_balance cfg FetchEnv.allExc cache now w
        cfg.SOLANA_TOKEN_MINT).balance with
    | none => simp [hb, hc]
    | some b => by_cases hlt : b < cfg.MIN_TOKEN_AMOUNT <;> simp [hb, hc, hlt]

/-- The daily sweep over a concatenation is the sweep over the first part
followed by the sweep over the second part from the resulting cache. -/
theorem daily_check_job_append (cfg : Config) (fenvOf : String → FetchEnv) (now : ℚ)
    (xs ys : Users) (cache : Cache) :
    daily_check_job cfg fenvOf now (xs ++ ys) cache =
      ((daily_check_job cfg fenvOf now xs cache).1 ++
         (daily_check_job cfg fenvOf now ys
           (daily_check_job cfg fenvOf now xs cache).2).1,
       (daily_check_job cfg fenvOf now ys
         (daily_check_job cfg fenvOf now xs cache).2).2) := by
  induction xs generalizing cache with
  | nil => simp [daily_check_job]
  | cons p rest ih =>
    obtain ⟨uid, data⟩ := p
    simp [daily_check_job, ih]

/-- The audit loop over a concatenation decomposes the same way. -/
theorem vip_audit_loop_append (cfg : Config) (fenvOf : String → FetchEnv) (now : ℚ)
    (xs ys : Users) (cache : Cache) :
    vip_audit_loop cfg fenvOf now (xs ++ ys) cache =
      ((vip_audit_loop cfg fenvOf now xs cache).1 ++
         (vip_audit_loop cfg fenvOf now ys
           (vip_audit_loop cfg fenvOf now xs cache).2).1,
       (vip_audit_loop cfg fenvOf now ys
         (vip_audit_loop cfg fenvOf now xs cache).2).2) := by
  induction xs generalizing cache with
  | nil => simp [vip_audit_loop]
  | cons p rest ih =>
    obtain ⟨uid, data⟩ := p
    simp [vip_audit_loop, ih]

/-- The daily sweep emits exactly one decision per registered user, in
registry order. -/
theorem daily_check_job_map_fst (cfg : Config) (fenvOf : String → FetchEnv) (now : ℚ)
    (users : Users) (cache : Cache) :
    (daily_check_job cfg fenvOf now users cache).1.map Prod.fst =
      users.map Prod.fst := by
  induction users generalizing cache with
  | nil => rfl
  | cons p rest ih =>
    obtain ⟨uid, data⟩ := p
    simp [daily_check_job, ih]

/-- The audit loop emits exactly one decision per registered user, in
registry order. -/
theorem vip_audit_loop_map_fst (cfg : Config) (fenvOf : String → FetchEnv) (now : ℚ)
    (users : Users) (cache : Cache) :
    (vip_audit_loop cfg fenvOf now users cache).1.map Prod.fst =
      users.map Prod.fst := by
  induction users generalizing cache with
  | nil => rfl
  | cons p rest ih =>
    obtain ⟨uid, data⟩ := p
    simp [vip_audit_loop, ih]

theorem daily_check_job_length (cfg : Config) (fenvOf : String → FetchEnv) (now : ℚ)
    (users : Users) (cache : Cache) :
    (daily_check_job cfg fenvOf now users cache).1.length = users.length := by
  simpa using congrArg List.length (daily_check_job_map_fst cfg fenvOf now users cache)

theorem vip_audit_loop_length (cfg : Config) (fenvOf : String → FetchEnv) (now : ℚ)
    (users : Users) (cache : Cache) :
    (vip_audit_loop cfg fenvOf now users cache).1.length = users.length := by
  simpa using congrArg List.length (vip_audit_loop_map_fst cfg fenvOf now users cache)

/-- Erasing the element that sits right after a prefix. -/
theorem eraseIdx_append_cons {α : Type} (l1 : List α) (x : α) (l2 : List α) :
    (l1 ++ x :: l2).eraseIdx l1.length = l1 ++ l2 := by
  induction l1 with
  | nil => rfl
  | cons a rest ih => simp [List.eraseIdx, ih]

/-- C2: per-user isolation of both periodic sweeps.  Take any registry
split as `us ++ (ub, db) :: vs` in which the evaluation of user `ub`
encounters a raised exception at every upstream source (the simulated
upstream-exception scenario; each `except` block inside the balance fetch
absorbs it).  Then (1) the hourly sweep still emits exactly one decision
per user, in order — no user after `ub` is skipped — and (2) deleting the
faulty entry from its output gives exactly the output of the sweep run on
the registry without that user, so every other user receives the decision
it would have received anyway; (3) and (4) state the same for the
two-hourly channel audit. -/
theorem c2_sweep_isolation (cfg : Config) (fenvOf : String → FetchEnv) (now : ℚ)
    (us vs : Users) (ub : String) (db : UserRecord) (w : String) (cache : Cache)
    (hw : db.wallet = some w) (hexc : fenvOf w = FetchEnv.allExc) :
    ((daily_check_job cfg fenvOf now (us ++ (ub, db) :: vs) cache).1.map Prod.fst =
       (us ++ (ub, db) :: vs).map Prod.fst) ∧
    ((daily_check_job cfg fenvOf now (us ++ (ub, db) :: vs) cache).1.eraseIdx
        us.length = (daily_check_job cfg fenvOf now (us ++ vs) cache).1) ∧
    ((check_vip_channel_members cfg true fenvOf now (us ++ (ub, db) :: vs) cache).1.map
        Prod.fst = (us ++ (ub, db) :: vs).map Prod.fst) ∧
    ((check_vip_channel_members cfg true fenvOf now
        (us ++ (ub, db) :: vs) cache).1.eraseIdx us.length =
      (check_vip_channel_members cfg true fenvOf now (us ++ vs) cache).1) := by
  refine ⟨daily_check_job_map_fst cfg fenvOf now _ cache, ?_,
    vip_audit_loop_map_fst cfg fenvOf now _ cache, ?_⟩
  · rw [daily_check_job_append cfg fenvOf now us ((ub, db) :: vs) cache,
      daily_check_job_append cfg fenvOf now us vs cache]
    simp only [daily_check_job]
    rw [daily_check_step_allExc cfg fenvOf now _ db w hw hexc]
    conv_lhs => rw [← daily_check_job_length cfg fenvOf now us cache]
    exact eraseIdx_append_cons _ _ _
  · show (vip_audit_loop cfg fenvOf now (us ++ (ub, db) :: vs) cache).1.eraseIdx
        us.length = (vip_audit_loop cfg fenvOf now (us ++ vs) cache).1
    rw [vip_audit_loop_append cfg fenvOf now us ((ub, db) :: vs) cache,
      vip_audit_loop_append cfg fenvOf now us vs cache]
    simp only [vip_audit_loop]
    rw [vip_audit_step_allExc cfg fenvOf now _ db w hw hexc]
    conv_lhs => rw [← vip_audit_loop_length cfg fenvOf now us cache]
    exact eraseIdx_append_cons _ _ _

/-- Witness for C2: the spec scenario with three users A, B, C where the
evaluation of B raises at every upstream source. -/
theorem c2_sweep_isolation_witness :
    ((daily_check_job cfgW fenvW 0
        [("1", ⟨some "wa", none, none⟩), ("2", ⟨some "wb", none, none⟩),
         ("3", ⟨some "wc", none, none⟩)] []).1.map Prod.fst =
      [("1", (⟨some "wa", none, none⟩ : UserRecord)), ("2", ⟨some "wb", none, none⟩),
       ("3", ⟨some "wc", none, none⟩)].map Prod.fst) ∧
    ((daily_check_job cfgW fenvW 0
        [("1", ⟨some "wa", none, none⟩), ("2", ⟨some "wb", none, none⟩),
         ("3", ⟨some "wc", none, none⟩)] []).1.eraseIdx 1 =
      (daily_check_job cfgW fenvW 0
        [("1", ⟨some "wa", none, none⟩), ("3", ⟨some "wc", none, none⟩)] []).1) ∧
    ((check_vip_channel_members cfgW true fenvW 0
        [("1", ⟨some "wa", none, none⟩), ("2", ⟨some "wb", none, none⟩),
         ("3", ⟨some "wc", none, none⟩)] []).1.map Prod.fst =
      [("1", (⟨some "wa", none, none⟩ : UserRecord)), ("2", ⟨some "wb", none, none⟩),
       ("3", ⟨some "wc", none, none⟩)].map Prod.fst) ∧
    ((check_vip_channel_members cfgW true fenvW 0
        [("1", ⟨some "wa", none, none⟩), ("2", ⟨some "wb", none, none⟩),
         ("3", ⟨some "wc", none, none⟩)] []).1.eraseIdx 1 =
      (check_vip_channel_members cfgW true fenvW 0
        [("1", ⟨some "wa", none, none⟩), ("3", ⟨some "wc", none, none⟩)] []).1) :=
  c2_sweep_isolation cfgW fenvW 0 [("1", ⟨some "wa", none, none⟩)]
    [("3", ⟨some "wc", none, none⟩)] "2" ⟨some "wb", none, none⟩ "wb" []
    (by decide) (by decide)

end SolanaBot
